import Mathlib

/-!
Shallow embedding of `src/index.js` (node-disk-stat).

Modelling conventions:
- JavaScript `undefined` is `Option.none`; the parsed counter fields are kept
  as strings exactly as the source stores them (the source never calls
  `parseInt`/`Number` at parse time).
- JavaScript numbers are modelled as exact rationals `ℚ`.  Every concrete
  arithmetic fact proved below only involves additions, subtractions,
  multiplications and divisions by powers of two, which are exact in IEEE
  doubles as well, so the concrete values are faithful to the JS runtime.
- The contents of `/proc/diskstats` is passed as an explicit `String`
  argument, and the two snapshot reads of `usageRead`/`usageWrite` are passed
  as explicit snapshot arguments, together with the measured elapsed time.
-/

/-- JS `String.prototype.trim`: drop whitespace from both ends.  (Defined
structurally on the character list so that proofs can evaluate it.) -/
def jsTrim (s : String) : String :=
  String.mk (((s.data.dropWhile Char.isWhitespace).reverse.dropWhile
    Char.isWhitespace).reverse)

/-- Split a character list at every character satisfying `p`, keeping empty
segments (the semantics of a single-character JS split). -/
def splitCharsAux (p : Char → Bool) : List Char → List Char → List String
  | [], acc => [String.mk acc.reverse]
  | c :: cs, acc =>
    if p c then String.mk acc.reverse :: splitCharsAux p cs []
    else splitCharsAux p cs (c :: acc)

/-- JS `content.split('\n')`: every segment kept, empty ones included. -/
def jsSplitNewline (s : String) : List String :=
  splitCharsAux (fun c => c = '\n') s.data []

/-- One run of `line.trim().split(/\s+/)` from the source.  After `trim`, a
JS split on a run-of-whitespace regex yields the non-empty tokens, except that
splitting the empty string yields `[""]`. -/
def splitFields (line : String) : List String :=
  let t := jsTrim line
  if t = "" then [""]
  else (splitCharsAux Char.isWhitespace t.data []).filter (fun s => s ≠ "")

/-- The per-device record built by `_parseProcDiskstats` (src/index.js lines
56-70).  Every field is stored as the raw string token; a field read past the
end of the split array is JS `undefined`, i.e. `none`. -/
structure DeviceStats where
  deviceNumber : Option String
  deviceNumberMinor : Option String
  readsCompleted : Option String
  readsMerged : Option String
  sectorsRead : Option String
  msReading : Option String
  writesCompleted : Option String
  writesMerged : Option String
  sectorsWritten : Option String
  msWriting : Option String
  iosPending : Option String
  msIo : Option String
  msWeightedIo : Option String
  deriving DecidableEq, Repr

/-- Positional field mapping of one split line (src/index.js lines 56-70):
`values[0]`, `values[1]`, `values[3]` .. `values[13]`. -/
def mkStats (v : List String) : DeviceStats :=
  { deviceNumber := v[0]?
    deviceNumberMinor := v[1]?
    readsCompleted := v[3]?
    readsMerged := v[4]?
    sectorsRead := v[5]?
    msReading := v[6]?
    writesCompleted := v[7]?
    writesMerged := v[8]?
    sectorsWritten := v[9]?
    msWriting := v[10]?
    iosPending := v[11]?
    msIo := v[12]?
    msWeightedIo := v[13]? }

/-- The object key `values[2]` of src/index.js line 56.  When `values[2]` is
JS `undefined`, `data[values[2]]` stores under the string key "undefined". -/
def lineKey (v : List String) : String := (v[2]?).getD "undefined"

/-- A parsed snapshot: the JS object `data`, as an ordered association list
with pairwise distinct keys (maintained by `objInsert`). -/
abbrev Snapshot := List (String × DeviceStats)

/-- JS object assignment `data[k] = s`: overwrite in place when the key
exists, otherwise append (JS objects keep first-insertion key order). -/
def objInsert (m : Snapshot) (k : String) (s : DeviceStats) : Snapshot :=
  if m.any (fun p => p.1 == k) then m.map (fun p => if p.1 == k then (k, s) else p)
  else m ++ [(k, s)]

/-- JS object property read `data[k]`: `none` is JS `undefined`. -/
def objGet (m : Snapshot) (k : String) : Option DeviceStats :=
  (m.find? (fun p => p.1 == k)).map Prod.snd

/-- Body of the `lines.forEach` callback of src/index.js lines 54-71. -/
def parseLine (m : Snapshot) (line : String) : Snapshot :=
  let v := splitFields line
  objInsert m (lineKey v) (mkStats v)

/-- `_parseProcDiskstats` (src/index.js lines 49-74), with the file contents
passed in: `toString().trim().split('\n')`, then one `parseLine` per line. -/
def _parseProcDiskstats (content : String) : Snapshot :=
  (jsSplitNewline (jsTrim content)).foldl parseLine []

/-- `raw` (src/index.js lines 150-152). -/
def raw (content : String) : Snapshot := _parseProcDiskstats content

/-- JS `ToNumber` on the integer counter strings of `/proc/diskstats`: a
non-empty digit string denotes its decimal value; anything else (including
`undefined`, i.e. `none`) coerces to `NaN`, and `NaN` is also returned as
`none`.  The source reaches this coercion through `delta1 - delta0` on the
string-valued counters (src/index.js line 117). -/
def jsNumber (x : Option String) : Option ℚ :=
  x.bind fun s =>
    if s.data ≠ [] ∧ s.data.all Char.isDigit
    then some ((s.data.foldl (fun n c => 10 * n + (c.toNat - 48)) 0 : ℕ) : ℚ)
    else none

/-- The caller-supplied options object of `usageRead`/`usageWrite`.  A field
the caller leaves unset is JS `undefined`, i.e. `none`; JS has no way to tell
an absent field from one set to `undefined`. -/
structure Opts where
  device : Option String
  sectorSizeBytes : Option ℚ
  sampleMs : Option ℚ
  units : Option String
  deriving DecidableEq, Repr

/-- The options after default resolution. -/
structure Config where
  device : String
  sectorSizeBytes : ℚ
  sampleMs : ℚ
  units : String
  deriving DecidableEq, Repr

/-- JS `x || d` for a numeric `x`: `undefined` and `0` are falsy. -/
def jsOrNum (x : Option ℚ) (d : ℚ) : ℚ :=
  match x with
  | none => d
  | some v => if v = 0 then d else v

/-- JS `x || d` for a string `x`: `undefined` and `""` are falsy. -/
def jsOrStr (x : Option String) (d : String) : String :=
  match x with
  | none => d
  | some s => if s = "" then d else s

/-- The default resolution of src/index.js lines 100-103 / 126-129:
`opts.sectorSizeBytes || 512`, `opts.sampleMs || 1000`, `opts.device || 'sda'`,
`opts.units || 'bytes'`. -/
def resolveOpts (o : Opts) : Config :=
  { sectorSizeBytes := jsOrNum o.sectorSizeBytes 512
    sampleMs := jsOrNum o.sampleMs 1000
    device := jsOrStr o.device "sda"
    units := jsOrStr o.units "bytes" }

/-- The state of the caller-supplied options object after the call: lines
100-103 (and 126-129) assign each resolved default back onto `opts` itself,
so every field ends up `some` of its resolved value. -/
def optsAfterCall (o : Opts) : Opts :=
  { device := some (resolveOpts o).device
    sectorSizeBytes := some (resolveOpts o).sectorSizeBytes
    sampleMs := some (resolveOpts o).sampleMs
    units := some (resolveOpts o).units }

/-- The object-literal lookup of `_bytesTo` (src/index.js lines 81-86).  All
four property values are evaluated eagerly, each `bytes /= ...` reusing the
variable already divided by the previous line, so the `MiB` entry holds
`bytes / 1024 / 1024²` and the `GiB` entry `bytes / 1024 / 1024² / 1024³`.
An unknown unit reads an absent property: `undefined`, i.e. `none`. -/
def _bytesToConverted (bytes : ℚ) (units : String) : Option ℚ :=
  let KiB : ℚ := 1024
  let MiB : ℚ := 1024 * KiB
  let GiB : ℚ := 1024 * MiB
  let bytes1 := bytes / KiB
  let bytes2 := bytes1 / MiB
  let bytes3 := bytes2 / GiB
  if units = "bytes" then some bytes
  else if units = "KiB" then some bytes1
  else if units = "MiB" then some bytes2
  else if units = "GiB" then some bytes3
  else none

/-- `_bytesTo` (src/index.js lines 76-92).  `converted || console.log(...)`:
when `converted` is falsy (`undefined` for an unknown unit, or the number `0`)
the function logs and returns the result of `console.log`, which is
`undefined` (`none`); otherwise it returns the converted number. -/
def _bytesTo (bytes : ℚ) (units : String) : Option ℚ :=
  match _bytesToConverted bytes units with
  | some v => if v = 0 then none else some v
  | none => none

/-- The observable outcome of a `usageRead`/`usageWrite` call.
`resolved v` : the returned promise resolves with `v` (`none` = `undefined`).
`thrown f d` : the call throws synchronously before the promise is built —
reading property `f` of `undefined` when device `d` is absent from the first
snapshot (src/index.js line 107 runs outside the `new Promise(...)`).
`hung f d`  : device `d` is absent from the second snapshot; the same
`TypeError` is raised inside the `async` executor (line 112), whose rejected
promise is discarded by the `Promise` constructor, so the returned promise
never settles and no error reaches the caller. -/
inductive Outcome where
  | resolved : Option ℚ → Outcome
  | thrown : String → String → Outcome
  | hung : String → String → Outcome
  deriving DecidableEq, Repr

/-- `usageRead` (src/index.js lines 98-123) as a function of the two snapshot
reads and the measured elapsed seconds.  After default resolution, the
sectorsRead counters of both snapshots are read (the NaN path — a counter
that is not a digit string — makes every later arithmetic result NaN, which
is falsy, so the promise resolves with `undefined`), then
`totalBytes = (delta1 - delta0) * sectorSizeBytes`,
`totalBytesPerSecond = totalBytes / (diffSeconds * diffSeconds)`, and the
promise resolves with `_bytesTo totalBytesPerSecond units`. -/
def usageRead (snap0 snap1 : Snapshot) (opts : Opts) (elapsed : ℚ) : Outcome :=
  let c := resolveOpts opts
  match objGet snap0 c.device with
  | none => Outcome.thrown "sectorsRead" c.device
  | some s0 =>
    match objGet snap1 c.device with
    | none => Outcome.hung "sectorsRead" c.device
    | some s1 =>
      match jsNumber s0.sectorsRead, jsNumber s1.sectorsRead with
      | some delta0, some delta1 =>
        let totalBytes := (delta1 - delta0) * c.sectorSizeBytes
        let totalBytesPerSecond := totalBytes / (elapsed * elapsed)
        Outcome.resolved (_bytesTo totalBytesPerSecond c.units)
      | _, _ => Outcome.resolved none

/-- `usageWrite` (src/index.js lines 125-148): identical to `usageRead` with
the `sectorsWritten` counter. -/
def usageWrite (snap0 snap1 : Snapshot) (opts : Opts) (elapsed : ℚ) : Outcome :=
  let c := resolveOpts opts
  match objGet snap0 c.device with
  | none => Outcome.thrown "sectorsWritten" c.device
  | some s0 =>
    match objGet snap1 c.device with
    | none => Outcome.hung "sectorsWritten" c.device
    | some s1 =>
      match jsNumber s0.sectorsWritten, jsNumber s1.sectorsWritten with
      | some delta0, some delta1 =>
        let totalBytes := (delta1 - delta0) * c.sectorSizeBytes
        let totalBytesPerSecond := totalBytes / (elapsed * elapsed)
        Outcome.resolved (_bytesTo totalBytesPerSecond c.units)
      | _, _ => Outcome.resolved none

/-- The object entry contributed by one line. -/
def lineEntry (l : String) : String × DeviceStats :=
  (lineKey (splitFields l), mkStats (splitFields l))

lemma objInsert_of_not_mem (m : Snapshot) (k : String) (s : DeviceStats)
    (h : ∀ p ∈ m, p.1 ≠ k) : objInsert m k s = m ++ [(k, s)] := by
  have hb : ¬(m.any (fun p => p.1 == k)) = true := by
    simp only [List.any_eq_true, beq_iff_eq, not_exists, not_and]
    exact h
  unfold objInsert
  rw [if_neg hb]

lemma foldl_parseLine_of_nodup (lines : List String) :
    ∀ acc : Snapshot,
      (∀ l ∈ lines, ∀ p ∈ acc, p.1 ≠ lineKey (splitFields l)) →
      (lines.map fun l => lineKey (splitFields l)).Nodup →
      lines.foldl parseLine acc = acc ++ lines.map lineEntry := by
  induction lines with
  | nil => intro acc _ _; simp
  | cons l ls ih =>
    intro acc hacc hnd
    simp only [List.map_cons, List.nodup_cons] at hnd
    have hins : parseLine acc l = acc ++ [lineEntry l] := by
      show objInsert acc (lineKey (splitFields l)) (mkStats (splitFields l)) = _
      exact objInsert_of_not_mem _ _ _ (fun p hp => hacc l (List.mem_cons_self l ls) p hp)
    have hacc2 : ∀ l2 ∈ ls, ∀ p ∈ acc ++ [lineEntry l], p.1 ≠ lineKey (splitFields l2) := by
      intro l2 hl2 p hp
      rcases List.mem_append.mp hp with hmem | hmem
      · exact hacc l2 (List.mem_cons_of_mem l hl2) p hmem
      · have hp1 : p = lineEntry l := by simpa using hmem
        subst hp1
        intro hk
        apply hnd.1
        show lineKey (splitFields l) ∈ _
        rw [show lineKey (splitFields l) = lineKey (splitFields l2) from hk]
        exact List.mem_map_of_mem _ hl2
    simp only [List.foldl_cons, hins]
    rw [ih (acc ++ [lineEntry l]) hacc2 hnd.2]
    simp

lemma objGet_map_lineEntry (lines : List String)
    (hnd : (lines.map fun l => lineKey (splitFields l)).Nodup) :
    ∀ l ∈ lines, objGet (lines.map lineEntry) (lineKey (splitFields l)) =
      some (mkStats (splitFields l)) := by
  induction lines with
  | nil => simp
  | cons a as ih =>
    simp only [List.map_cons, List.nodup_cons] at hnd
    intro l hl
    rcases List.mem_cons.mp hl with h | h
    · subst h
      simp only [objGet, List.map_cons]
      rw [List.find?_cons_of_pos _ (by simp [lineEntry])]
      simp [lineEntry]
    · have hfalse : ((lineEntry a).1 == lineKey (splitFields l)) = false := by
        simp only [lineEntry, beq_eq_false_iff_ne, ne_eq]
        intro hk
        apply hnd.1
        rw [hk]
        exact List.mem_map_of_mem _ h
      have hstep : objGet ((a :: as).map lineEntry) (lineKey (splitFields l)) =
          objGet (as.map lineEntry) (lineKey (splitFields l)) := by
        simp only [objGet, List.map_cons, List.find?, hfalse]
      rw [hstep]
      exact ih hnd.2 l h

/-! Concrete fixtures used by the claim witnesses and evaluations below. -/

/-- A well-formed diskstats line for device `sda` with `sectorsRead = 1000`
and `sectorsWritten = 500`. -/
def sampleLine0 : String := "8 0 sda 10 20 1000 40 50 60 500 80 90 100 110"

/-- The same device one sampling window later: `sectorsRead = 3000`,
`sectorsWritten = 2500`. -/
def sampleLine1 : String := "8 0 sda 10 20 3000 40 50 60 2500 80 90 100 110"

/-- The record parsed from `sampleLine0`. -/
def sampleStats0 : DeviceStats := mkStats (splitFields sampleLine0)

/-- The record parsed from `sampleLine1`. -/
def sampleStats1 : DeviceStats := mkStats (splitFields sampleLine1)

/-- First snapshot fixture. -/
def sampleSnap0 : Snapshot := _parseProcDiskstats sampleLine0

/-- Second snapshot fixture. -/
def sampleSnap1 : Snapshot := _parseProcDiskstats sampleLine1

/-- The options object `{}`: every field unset. -/
def emptyOpts : Opts :=
  { device := none, sectorSizeBytes := none, sampleMs := none, units := none }

/-- The options object `{units: "TiB"}`. -/
def tibOpts : Opts :=
  { device := none, sectorSizeBytes := none, sampleMs := none, units := some "TiB" }

/-- An options object whose every field is set to a falsy value. -/
def falsyOpts : Opts :=
  { device := some "", sectorSizeBytes := some 0, sampleMs := some 0, units := some "" }

/-- C1: for a device present in both snapshots with numeric counters, and
elapsedSeconds > 0, the value `usageRead` (resp. `usageWrite`) passes to unit
conversion is `(delta * sectorSizeBytes) / (elapsedSeconds * elapsedSeconds)`,
with `delta` the difference of the sectorsRead (resp. sectorsWritten)
counters — the raw rate divides by the square of the elapsed time, exactly as
step 8 of the spec states. -/
theorem C1_rate_divides_by_squared_elapsed
    (snap0 snap1 : Snapshot) (opts : Opts) (elapsed : ℚ) (s0 s1 : DeviceStats)
    (d0 d1 w0 w1 : ℚ)
    (h0 : objGet snap0 (resolveOpts opts).device = some s0)
    (h1 : objGet snap1 (resolveOpts opts).device = some s1)
    (hd0 : jsNumber s0.sectorsRead = some d0)
    (hd1 : jsNumber s1.sectorsRead = some d1)
    (hw0 : jsNumber s0.sectorsWritten = some w0)
    (hw1 : jsNumber s1.sectorsWritten = some w1)
    (_he : 0 < elapsed) :
    usageRead snap0 snap1 opts elapsed =
      Outcome.resolved (_bytesTo (((d1 - d0) * (resolveOpts opts).sectorSizeBytes) /
        (elapsed * elapsed)) (resolveOpts opts).units) ∧
    usageWrite snap0 snap1 opts elapsed =
      Outcome.resolved (_bytesTo (((w1 - w0) * (resolveOpts opts).sectorSizeBytes) /
        (elapsed * elapsed)) (resolveOpts opts).units) := by
  constructor
  · simp [usageRead, h0, h1, hd0, hd1]
  · simp [usageWrite, h0, h1, hw0, hw1]

/-- Witness for C1 at the concrete fixtures: delta 2000 sectors, 512-byte
sectors, one elapsed second, unit "bytes": both rates are 1024000. -/
theorem C1_rate_divides_by_squared_elapsed_witness :
    usageRead sampleSnap0 sampleSnap1 emptyOpts 1 = Outcome.resolved (some 1024000) ∧
    usageWrite sampleSnap0 sampleSnap1 emptyOpts 1 = Outcome.resolved (some 1024000) := by
  obtain ⟨hr, hw⟩ := C1_rate_divides_by_squared_elapsed sampleSnap0 sampleSnap1 emptyOpts 1
    sampleStats0 sampleStats1 1000 3000 500 2500
    (by decide) (by decide) (by decide) (by decide) (by decide) (by decide) (by norm_num)
  refine ⟨hr.trans ?_, hw.trans ?_⟩ <;>
    · simp [resolveOpts, jsOrNum, jsOrStr, emptyOpts, _bytesTo, _bytesToConverted]
      norm_num

/-- C2: the claim that each unit is converted independently from the original
byte value fails on the code: the object literal of `_bytesTo` reuses the
`bytes` variable already divided by the previous entry, so "MiB" returns
`v / 1024 / 1024²` (not `v / 1024²`) and "GiB" returns `v / 1024 / 1024² /
1024³`.  Converting 1048576 to "MiB" yields 1/1024, not 1.0 (while "KiB",
the first compounded entry, does yield 1024). -/
theorem C2_compounding_unit_conversion :
    _bytesTo 1048576 "MiB" = some (1 / 1024) ∧
    _bytesTo 1048576 "MiB" ≠ some 1 ∧
    _bytesTo 1048576 "KiB" = some 1024 ∧
    _bytesTo 1048576 "GiB" = some (1 / 1099511627776) := by
  have hMiB : _bytesTo 1048576 "MiB" = some (1 / 1024) := by
    simp [_bytesTo, _bytesToConverted]
    norm_num
  refine ⟨hMiB, ?_, ?_, ?_⟩
  · rw [hMiB]
    simp only [ne_eq, Option.some.injEq]
    norm_num
  · simp [_bytesTo, _bytesToConverted]
    norm_num
  · simp [_bytesTo, _bytesToConverted]
    norm_num

/-- C3: the claim that an unrecognized unit fails with an InvalidUnit error
fails on the code: `_bytesTo` logs and returns the result of `console.log`,
which is `undefined`, and `usageRead` resolves with that `undefined` value
rather than rejecting. -/
theorem C3_unknown_unit_returns_undefined :
    _bytesTo 1024 "TiB" = none ∧
    usageRead sampleSnap0 sampleSnap1 tibOpts 1 = Outcome.resolved none := by
  constructor
  · simp [_bytesTo, _bytesToConverted]
  · have h0 : objGet sampleSnap0 "sda" = some sampleStats0 := by decide
    have h1 : objGet sampleSnap1 "sda" = some sampleStats1 := by decide
    have hd0 : jsNumber sampleStats0.sectorsRead = some 1000 := by decide
    have hd1 : jsNumber sampleStats1.sectorsRead = some 3000 := by decide
    have hdev : (resolveOpts tibOpts).device = "sda" := by decide
    have hunits : (resolveOpts tibOpts).units = "TiB" := by decide
    simp [usageRead, hdev, hunits, h0, h1, hd0, hd1, _bytesTo, _bytesToConverted]

/-- Two well-formed lines with distinct device names; the sda sectorsRead
counter holds the 64-bit value 9007199254740993 (2^53 + 1, not representable
in a double). -/
def c4Line0 : String := "8 0 sda 10 20 9007199254740993 40 50 60 70 80 90 100 110"

/-- Second line of the C4 fixture, device `sdb`. -/
def c4Line1 : String := "8 16 sdb 1 2 3 4 5 6 7 8 9 10 11"

/-- The C4 fixture file contents: both lines joined by a newline. -/
def c4Content : String := "8 0 sda 10 20 9007199254740993 40 50 60 70 80 90 100 110\n8 16 sdb 1 2 3 4 5 6 7 8 9 10 11"

/-- C4: for any file contents whose lines each split into exactly 14 fields
with pairwise distinct 3rd fields, `raw` returns exactly one entry per line,
keyed by the 3rd field of each line in order, and the entry of each line is
the record mapping the remaining fields positionally per the §3 table —
each counter kept as the exact source token, so arbitrary 64-bit values
round-trip with no precision loss. -/
theorem C4_parse_roundtrip (content : String) (lines : List String)
    (hl : jsSplitNewline (jsTrim content) = lines)
    (hwf : ∀ l ∈ lines, (splitFields l).length = 14)
    (hnd : (lines.map fun l => lineKey (splitFields l)).Nodup) :
    (raw content).length = lines.length ∧
    (raw content).map Prod.fst = lines.map (fun l => lineKey (splitFields l)) ∧
    ∀ l ∈ lines,
      (splitFields l)[2]? = some (lineKey (splitFields l)) ∧
      objGet (raw content) (lineKey (splitFields l)) =
        some { deviceNumber := (splitFields l)[0]?
               deviceNumberMinor := (splitFields l)[1]?
               readsCompleted := (splitFields l)[3]?
               readsMerged := (splitFields l)[4]?
               sectorsRead := (splitFields l)[5]?
               msReading := (splitFields l)[6]?
               writesCompleted := (splitFields l)[7]?
               writesMerged := (splitFields l)[8]?
               sectorsWritten := (splitFields l)[9]?
               msWriting := (splitFields l)[10]?
               iosPending := (splitFields l)[11]?
               msIo := (splitFields l)[12]?
               msWeightedIo := (splitFields l)[13]? } := by
  have hraw : raw content = lines.map lineEntry := by
    show _parseProcDiskstats content = _
    unfold _parseProcDiskstats
    rw [hl, foldl_parseLine_of_nodup lines [] (by simp) hnd]
    simp
  refine ⟨by rw [hraw]; simp, by rw [hraw]; simp [lineEntry], ?_⟩
  intro l hmem
  have hlen := hwf l hmem
  have h2lt : 2 < (splitFields l).length := by omega
  constructor
  · have h2 : (splitFields l)[2]? = some ((splitFields l)[2]) :=
      List.getElem?_eq_getElem h2lt
    rw [h2]
    unfold lineKey
    rw [h2]
    rfl
  · rw [hraw]
    exact objGet_map_lineEntry lines hnd l hmem

/-- Witness for C4 at the two-line fixture: two entries, and the sda record
holds the exact string "9007199254740993". -/
theorem C4_parse_roundtrip_witness :
    (raw c4Content).length = 2 ∧
    objGet (raw c4Content) "sda" =
      some { deviceNumber := some "8", deviceNumberMinor := some "0",
             readsCompleted := some "10", readsMerged := some "20",
             sectorsRead := some "9007199254740993", msReading := some "40",
             writesCompleted := some "50", writesMerged := some "60",
             sectorsWritten := some "70", msWriting := some "80",
             iosPending := some "90", msIo := some "100",
             msWeightedIo := some "110" } := by
  obtain ⟨hlen, -, hmem⟩ := C4_parse_roundtrip c4Content [c4Line0, c4Line1]
    (by decide) (by decide) (by decide)
  obtain ⟨-, hobj⟩ := hmem c4Line0 (by simp)
  have hkey : lineKey (splitFields c4Line0) = "sda" := by decide
  rw [hkey] at hobj
  refine ⟨by rw [hlen]; rfl, hobj.trans ?_⟩
  decide

/-- C5 counterexample: with device `sda` present in the first snapshot but
absent from the second, the claim that the lookup failure "propagates to the
caller" is false: the `TypeError` is raised inside the `async` promise
executor (src/index.js line 112), whose rejection the `Promise` constructor
discards, so the returned promise never settles (`Outcome.hung`) — no
DeviceNotFound (or any) error reaches the caller. -/
theorem C5_counterexample :
    usageRead sampleSnap0 [] emptyOpts 1 = Outcome.hung "sectorsRead" "sda" ∧
    usageWrite sampleSnap0 [] emptyOpts 1 = Outcome.hung "sectorsWritten" "sda" := by
  constructor <;> decide

/-- C5 amended: a device absent from the first snapshot makes the call fail
before the promise is built — the `TypeError` of reading `sectorsRead` (resp.
`sectorsWritten`) of `undefined` propagates synchronously to the caller.  The
lookup also occurs on the second snapshot and can fail there, aborting the
sample, but that failure does not propagate: the returned promise never
settles.  In both cases no partial result is returned. -/
theorem C5_device_absent_behaviour (snap0 snap1 : Snapshot) (opts : Opts) (elapsed : ℚ) :
    (objGet snap0 (resolveOpts opts).device = none →
      usageRead snap0 snap1 opts elapsed =
        Outcome.thrown "sectorsRead" (resolveOpts opts).device ∧
      usageWrite snap0 snap1 opts elapsed =
        Outcome.thrown "sectorsWritten" (resolveOpts opts).device) ∧
    (∀ s0, objGet snap0 (resolveOpts opts).device = some s0 →
      objGet snap1 (resolveOpts opts).device = none →
      usageRead snap0 snap1 opts elapsed =
        Outcome.hung "sectorsRead" (resolveOpts opts).device ∧
      usageWrite snap0 snap1 opts elapsed =
        Outcome.hung "sectorsWritten" (resolveOpts opts).device) ∧
    (objGet snap0 (resolveOpts opts).device = none ∨
        objGet snap1 (resolveOpts opts).device = none →
      ∀ v, usageRead snap0 snap1 opts elapsed ≠ Outcome.resolved v ∧
        usageWrite snap0 snap1 opts elapsed ≠ Outcome.resolved v) := by
  refine ⟨fun h => ⟨by simp [usageRead, h], by simp [usageWrite, h]⟩,
    fun s0 h0 h1 => ⟨by simp [usageRead, h0, h1], by simp [usageWrite, h0, h1]⟩, ?_⟩
  intro h v
  rcases h with h | h
  · exact ⟨by simp [usageRead, h], by simp [usageWrite, h]⟩
  · rcases heq : objGet snap0 (resolveOpts opts).device with _ | s0
    · exact ⟨by simp [usageRead, heq], by simp [usageWrite, heq]⟩
    · exact ⟨by simp [usageRead, heq, h], by simp [usageWrite, heq, h]⟩

/-- Witness for C5 at concrete snapshots: absence from the first snapshot
throws synchronously; absence from the second snapshot leaves the promise
unsettled. -/
theorem C5_device_absent_behaviour_witness :
    usageRead [] sampleSnap1 emptyOpts 1 = Outcome.thrown "sectorsRead" "sda" ∧
    usageRead sampleSnap0 [] emptyOpts 1 = Outcome.hung "sectorsRead" "sda" := by
  have hdev : (resolveOpts emptyOpts).device = "sda" := by decide
  have h1 := ((C5_device_absent_behaviour [] sampleSnap1 emptyOpts 1).1
    (by rw [hdev]; decide)).1
  have h2 := (((C5_device_absent_behaviour sampleSnap0 [] emptyOpts 1).2.1
    sampleStats0 (by rw [hdev]; decide) (by rw [hdev]; decide))).1
  rw [hdev] at h1 h2
  exact ⟨h1, h2⟩

/-- C6: the claim that a line with fewer than 14 fields is skipped or fails
the read is false on the code: `_parseProcDiskstats` maps the missing
`values[i]` — all JS `undefined` — straight into the record fields, silently
producing an entry whose numeric fields are undefined.  Evaluated at the
4-field line "8 0 sda 100": the mapping still contains one entry for `sda`,
with every field from `readsMerged` on `undefined`. -/
theorem C6_short_line_keeps_undefined_fields :
    (_parseProcDiskstats "8 0 sda 100").length = 1 ∧
    objGet (_parseProcDiskstats "8 0 sda 100") "sda" =
      some { deviceNumber := some "8", deviceNumberMinor := some "0",
             readsCompleted := some "100", readsMerged := none,
             sectorsRead := none, msReading := none, writesCompleted := none,
             writesMerged := none, sectorsWritten := none, msWriting := none,
             iosPending := none, msIo := none, msWeightedIo := none } := by
  constructor <;> decide

/-- C7: with the device present in both snapshots, sectorsRead counters
R0 ≤ R1, a positive resolved sector size and positive elapsed time, the rate
computed by `usageRead` (the value handed to unit conversion) is non-negative
and equals a constant (fixed by sector size and elapsed time) times
(R1 - R0), i.e. it is proportional to the counter difference. -/
theorem C7_rate_nonneg_and_proportional
    (snap0 snap1 : Snapshot) (opts : Opts) (elapsed : ℚ) (s0 s1 : DeviceStats)
    (R0 R1 : ℕ)
    (h0 : objGet snap0 (resolveOpts opts).device = some s0)
    (h1 : objGet snap1 (resolveOpts opts).device = some s1)
    (hd0 : jsNumber s0.sectorsRead = some (R0 : ℚ))
    (hd1 : jsNumber s1.sectorsRead = some (R1 : ℚ))
    (hR : R0 ≤ R1)
    (hsz : 0 < (resolveOpts opts).sectorSizeBytes)
    (he : 0 < elapsed) :
    usageRead snap0 snap1 opts elapsed =
      Outcome.resolved (_bytesTo
        (((R1 : ℚ) - (R0 : ℚ)) * (resolveOpts opts).sectorSizeBytes / (elapsed * elapsed))
        (resolveOpts opts).units) ∧
    0 ≤ ((R1 : ℚ) - (R0 : ℚ)) * (resolveOpts opts).sectorSizeBytes / (elapsed * elapsed) ∧
    ((R1 : ℚ) - (R0 : ℚ)) * (resolveOpts opts).sectorSizeBytes / (elapsed * elapsed) =
      ((resolveOpts opts).sectorSizeBytes / (elapsed * elapsed)) * ((R1 : ℚ) - (R0 : ℚ)) := by
  refine ⟨by simp [usageRead, h0, h1, hd0, hd1], ?_, by ring⟩
  apply div_nonneg
  · exact mul_nonneg (sub_nonneg.mpr (by exact_mod_cast hR)) hsz.le
  · exact mul_nonneg he.le he.le

/-- Witness for C7 at the concrete fixtures: R0 = 1000, R1 = 3000, sector
size 512, elapsed 1 second. -/
theorem C7_rate_nonneg_and_proportional_witness :
    usageRead sampleSnap0 sampleSnap1 emptyOpts 1 = Outcome.resolved (some 1024000) ∧
    (0 : ℚ) ≤ ((3000 : ℚ) - 1000) * 512 / (1 * 1) := by
  have hsz : (resolveOpts emptyOpts).sectorSizeBytes = 512 := by decide
  have hunits : (resolveOpts emptyOpts).units = "bytes" := by decide
  obtain ⟨hrate, hnn, -⟩ := C7_rate_nonneg_and_proportional
    sampleSnap0 sampleSnap1 emptyOpts 1 sampleStats0 sampleStats1 1000 3000
    (by decide) (by decide) (by decide) (by decide) (by norm_num)
    (by rw [hsz]; norm_num) (by norm_num)
  rw [hsz, hunits] at hrate
  rw [hsz] at hnn
  push_cast at hrate hnn
  refine ⟨hrate.trans ?_, hnn⟩
  have : ((3000 : ℚ) - 1000) * 512 / (1 * 1) = 1024000 := by norm_num
  rw [this]
  simp [_bytesTo, _bytesToConverted]

/-- C8: the claim that `usageRead`/`usageWrite` never mutate the
caller-supplied options object is false on the code: lines 100-103 (and
126-129) assign each resolved default back onto `opts` itself.  Evaluated at
the empty options object: after the call the caller holds
`{device: "sda", sectorSizeBytes: 512, sampleMs: 1000, units: "bytes"}`,
not the empty object it passed in. -/
theorem C8_opts_mutated_in_place :
    optsAfterCall emptyOpts ≠ emptyOpts ∧
    optsAfterCall emptyOpts =
      { device := some "sda", sectorSizeBytes := some 512,
        sampleMs := some 1000, units := some "bytes" } := by
  constructor <;> decide

/-- C9: when the converted value is the number 0 — in particular when the
counter delta of an idle device is 0, making the raw rate 0 — the falsy
guard `converted || console.log(...)` of `_bytesTo` takes the logging branch
and the function returns `undefined` instead of 0, so `usageRead` and
`usageWrite` resolve with `undefined` rather than 0. -/
theorem C9_zero_converts_to_undefined :
    (∀ (v : ℚ) (u : String), _bytesToConverted v u = some 0 → _bytesTo v u = none) ∧
    (∀ (snap0 snap1 : Snapshot) (opts : Opts) (elapsed : ℚ) (s0 s1 : DeviceStats)
      (d w : ℚ),
      objGet snap0 (resolveOpts opts).device = some s0 →
      objGet snap1 (resolveOpts opts).device = some s1 →
      jsNumber s0.sectorsRead = some d → jsNumber s1.sectorsRead = some d →
      jsNumber s0.sectorsWritten = some w → jsNumber s1.sectorsWritten = some w →
      usageRead snap0 snap1 opts elapsed = Outcome.resolved none ∧
      usageWrite snap0 snap1 opts elapsed = Outcome.resolved none) := by
  constructor
  · intro v u h
    simp [_bytesTo, h]
  · intro snap0 snap1 opts elapsed s0 s1 d w h0 h1 hd0 hd1 hw0 hw1
    have hz : ∀ u : String, _bytesTo 0 u = none := by
      intro u
      simp only [_bytesTo, _bytesToConverted, zero_div]
      split_ifs <;> simp
    constructor
    · simp [usageRead, h0, h1, hd0, hd1, hz]
    · simp [usageWrite, h0, h1, hw0, hw1, hz]

/-- Witness for C9: converting the number 0 with unit "bytes" yields
`undefined`, and sampling an idle device (identical snapshots) resolves with
`undefined` rather than 0. -/
theorem C9_zero_converts_to_undefined_witness :
    _bytesTo 0 "bytes" = none ∧
    usageRead sampleSnap0 sampleSnap0 emptyOpts 1 = Outcome.resolved none ∧
    usageWrite sampleSnap0 sampleSnap0 emptyOpts 1 = Outcome.resolved none := by
  refine ⟨(C9_zero_converts_to_undefined).1 0 "bytes" (by simp [_bytesToConverted]), ?_⟩
  have h := (C9_zero_converts_to_undefined).2 sampleSnap0 sampleSnap0 emptyOpts 1
    sampleStats0 sampleStats0 1000 500
    (by decide) (by decide) (by decide) (by decide) (by decide) (by decide)
  exact h

/-- C10: a field supplied with a falsy value (0 for the numbers, "" for the
strings) is indistinguishable from an unset field: the `||` defaults of
src/index.js lines 100-103 / 126-129 replace it with the default, so the
all-falsy options resolve exactly like the empty options — to device "sda",
sectorSizeBytes 512, sampleMs 1000, units "bytes" — and `usageRead` and
`usageWrite` behave identically on both. -/
theorem C10_falsy_fields_are_defaulted :
    (∀ opts : Opts,
      resolveOpts { opts with sampleMs := some 0 } =
        resolveOpts { opts with sampleMs := none } ∧
      resolveOpts { opts with sectorSizeBytes := some 0 } =
        resolveOpts { opts with sectorSizeBytes := none } ∧
      resolveOpts { opts with device := some "" } =
        resolveOpts { opts with device := none } ∧
      resolveOpts { opts with units := some "" } =
        resolveOpts { opts with units := none }) ∧
    resolveOpts falsyOpts = resolveOpts emptyOpts ∧
    resolveOpts falsyOpts =
      { device := "sda", sectorSizeBytes := 512, sampleMs := 1000, units := "bytes" } ∧
    (∀ (snap0 snap1 : Snapshot) (elapsed : ℚ),
      usageRead snap0 snap1 falsyOpts elapsed = usageRead snap0 snap1 emptyOpts elapsed ∧
      usageWrite snap0 snap1 falsyOpts elapsed = usageWrite snap0 snap1 emptyOpts elapsed) := by
  have hres : resolveOpts falsyOpts = resolveOpts emptyOpts := by decide
  refine ⟨?_, hres, by decide, ?_⟩
  · intro opts
    refine ⟨?_, ?_, ?_, ?_⟩ <;> simp [resolveOpts, jsOrNum, jsOrStr]
  · intro snap0 snap1 elapsed
    constructor
    · simp only [usageRead, hres]
    · simp only [usageWrite, hres]

